import Mathlib

/-!
Verification of the books web-crawler repository: a shallow embedding of the
change-detection, retry, politeness, consolidation, crawl-run and scheduler
logic, with theorems settling the specification claims.
-/

set_option maxRecDepth 4096

/-- A MongoDB/Python value as it occurs in the book documents and diff maps:
a string, a numeric value (prices, counts, timestamps are modelled as
rationals or naturals embedded in the rationals), or Python None (also used
for a key absent from a document, matching dict.get). -/
inductive Value where
  | vstr (s : String)
  | vnum (q : ℚ)
  | vnone
deriving DecidableEq, Repr

/-- A document is an association list of field name to value, embedding a
Python dict with unique keys. -/
abbrev Doc := List (String × Value)

/-- Python dict.get(k): the stored value, or None when the key is absent. -/
def dictGet (d : Doc) (k : String) : Value :=
  match d.find? (fun e => e.1 == k) with
  | some e => e.2
  | none => Value.vnone

/-! ## src/scheduler/fingerprinting.py -/

/-- The tracked field set of detect_changes (fingerprinting.py lines 26-29). -/
def tracked_fields : List String :=
  ["title", "description", "category", "price_incl_tax", "price_excl_tax",
   "availability", "num_reviews", "rating"]

/-- detect_changes (fingerprinting.py lines 14-41): compare the tracked fields
of two documents and collect an entry (field, old, new) for every tracked
field whose values differ. -/
def detect_changes (old_content new_content : Doc) : List (String × Value × Value) :=
  tracked_fields.filterMap (fun field =>
    let old_value := dictGet old_content field
    let new_value := dictGet new_content field
    if old_value ≠ new_value then some (field, old_value, new_value) else none)

/-- The fields whose every change is significant (fingerprinting.py line 54). -/
def significant_fields : List String := ["title", "description", "category"]

/-- The price fields (fingerprinting.py line 55). -/
def price_fields : List String := ["price_incl_tax", "price_excl_tax"]

/-- The default significance threshold of is_significant_price_change
(fingerprinting.py line 72): 0.05, i.e. five percent. -/
def sig_threshold : ℚ := 5 / 100

/-- float(x or 0) as applied to a price taken from a diff map
(fingerprinting.py lines 64-65): None becomes 0. Price fields hold
null-or-numeric values (the Book model types them Optional float); a
non-numeric value would raise in the code and does not occur. -/
def floatOrZero : Value → ℚ
  | Value.vnum q => q
  | _ => 0

/-- is_significant_price_change (fingerprinting.py lines 72-88): when the old
price is 0 the result is (new price greater than 0), with no division;
otherwise the result is abs(new - old) / old greater than the threshold. -/
def is_significant_price_change (old_price new_price threshold : ℚ) : Bool :=
  if old_price = 0 then
    decide (0 < new_price)
  else
    decide (threshold < |new_price - old_price| / old_price)

/-- is_significant_change (fingerprinting.py lines 44-69): true when a
significant field occurs in the diff, else true when either price field
occurs with a significant price change under the default threshold. -/
def is_significant_change (changes : List (String × Value × Value)) : Bool :=
  if significant_fields.any (fun f => changes.any (fun c => c.1 == f)) then
    true
  else
    price_fields.any (fun f =>
      match changes.find? (fun c => c.1 == f) with
      | some c =>
          is_significant_price_change (floatOrZero c.2.1) (floatOrZero c.2.2) sig_threshold
      | none => false)

/-! ## src/scheduler/notifications.py -/

/-- notify_price_change (notifications.py lines 160-186): computes
change_pct = ((new - old) / old) * 100 and simulates an email exactly when
abs(change_pct) is at least 20. Returns whether an email is sent; a zero old
price raises ZeroDivisionError in the code, modelled as Option.none. -/
def notify_price_change_sends (old_price new_price : ℚ) : Option Bool :=
  if old_price = 0 then
    none
  else
    some (decide (20 ≤ |(new_price - old_price) / old_price * 100|))

/-! ## src/crawler/store.py: upsert_book change detection -/

/-- The changes dict computed inside MongoStore.upsert_book (store.py lines
104-108): one (k, old, new) entry for every key k of the new document that is
present in the stored document with a different value. Every key of the new
document participates, the untracked metadata keys included. -/
def upsert_book_changes (existing book_dict : Doc) : List (String × Value × Value) :=
  book_dict.filterMap (fun kv =>
    match existing.find? (fun e => e.1 == kv.1) with
    | some e => if e.2 ≠ kv.2 then some (kv.1, e.2, kv.2) else none
    | none => none)

/-- The number of ChangeRecord documents upsert_book inserts for an update
(store.py lines 110-123): record_change is called once when the changes dict
is nonempty, inserting a single document, and never otherwise. -/
def upsert_change_records (existing book_dict : Doc) : Nat :=
  if upsert_book_changes existing book_dict = [] then 0 else 1

/-- 19.99 as a rational, written as a reduced numerator/denominator pair so
that document comparisons evaluate by kernel reduction. -/
def price1999 : ℚ := ⟨1999, 100, by norm_num, by norm_num [Nat.Coprime]⟩

/-- 24.99 as a rational, written as a reduced numerator/denominator pair. -/
def price2499 : ℚ := ⟨2499, 100, by norm_num, by norm_num [Nat.Coprime]⟩

/-- A 0.5 second response time, written as a reduced pair. -/
def respHalf : ℚ := ⟨1, 2, by norm_num, by norm_num [Nat.Coprime]⟩

/-- A stored book document as first inserted by upsert_book: the Book model
fields plus the metadata keys raw_html_hash, raw_html_snapshot_path and
crawl_timestamp that upsert_book adds (store.py lines 87-97). Timestamps are
modelled as numbers. -/
def exampleExisting : Doc :=
  [("source_url", Value.vstr "https://books.toscrape.com/catalogue/a-light-in-the-attic_1000/index.html"),
   ("title", Value.vstr "A Light in the Attic"),
   ("description", Value.vstr "A classic collection."),
   ("category", Value.vstr "Poetry"),
   ("price_incl_tax", Value.vnum price1999),
   ("price_excl_tax", Value.vnum price1999),
   ("availability", Value.vstr "22 available"),
   ("num_reviews", Value.vnum 0),
   ("image_url", Value.vnone),
   ("rating", Value.vnum 3),
   ("raw_html_hash", Value.vstr "hash1"),
   ("raw_html_snapshot_path", Value.vstr "snap1"),
   ("crawl_timestamp", Value.vnum 100),
   ("status", Value.vstr "success"),
   ("response_time", Value.vnum respHalf),
   ("http_status", Value.vnum 200),
   ("id", Value.vnone)]

/-- The document of a repeat crawl of the same page with identical tracked
field values: only the untracked crawl_timestamp metadata differs, as it does
on every re-upsert since upsert_book stamps datetime.utcnow(). -/
def exampleRecrawl : Doc :=
  [("source_url", Value.vstr "https://books.toscrape.com/catalogue/a-light-in-the-attic_1000/index.html"),
   ("title", Value.vstr "A Light in the Attic"),
   ("description", Value.vstr "A classic collection."),
   ("category", Value.vstr "Poetry"),
   ("price_incl_tax", Value.vnum price1999),
   ("price_excl_tax", Value.vnum price1999),
   ("availability", Value.vstr "22 available"),
   ("num_reviews", Value.vnum 0),
   ("image_url", Value.vnone),
   ("rating", Value.vnum 3),
   ("raw_html_hash", Value.vstr "hash1"),
   ("raw_html_snapshot_path", Value.vstr "snap1"),
   ("crawl_timestamp", Value.vnum 200),
   ("status", Value.vstr "success"),
   ("response_time", Value.vnum respHalf),
   ("http_status", Value.vnum 200),
   ("id", Value.vnone)]

/-- A repeat crawl where exactly one tracked field changed: the price
including tax moved from 19.99 to 24.99 (and, for isolation, every other key
kept its stored value). -/
def examplePriceChange : Doc :=
  [("source_url", Value.vstr "https://books.toscrape.com/catalogue/a-light-in-the-attic_1000/index.html"),
   ("title", Value.vstr "A Light in the Attic"),
   ("description", Value.vstr "A classic collection."),
   ("category", Value.vstr "Poetry"),
   ("price_incl_tax", Value.vnum price2499),
   ("price_excl_tax", Value.vnum price1999),
   ("availability", Value.vstr "22 available"),
   ("num_reviews", Value.vnum 0),
   ("image_url", Value.vnone),
   ("rating", Value.vnum 3),
   ("raw_html_hash", Value.vstr "hash1"),
   ("raw_html_snapshot_path", Value.vstr "snap1"),
   ("crawl_timestamp", Value.vnum 100),
   ("status", Value.vstr "success"),
   ("response_time", Value.vnum respHalf),
   ("http_status", Value.vnum 200),
   ("id", Value.vnone)]

/-! ## src/crawler/store.py: consolidate_changes -/

/-- One document of the book_changes collection: owning book, timestamp,
change_type (update or consolidated) and, for a consolidated summary, the
pair of change count and first/last timestamp range. -/
structure ChangeDoc where
  book_id : Nat
  timestamp : Nat
  change_type : String
  summary : Option (Nat × Nat × Nat)
deriving DecidableEq, Repr

/-- Minimum of a list of timestamps (the aggregation accumulator for
first_change); 0 on the empty list, which the grouping never produces. -/
def minTs : List Nat → Nat
  | [] => 0
  | h :: t => t.foldl Nat.min h

/-- Maximum of a list of timestamps (the accumulator for last_change). -/
def maxTs : List Nat → Nat
  | [] => 0
  | h :: t => t.foldl Nat.max h

/-- One iteration of the consolidation loop (store.py lines 462-476) for the
group of a single book id: delete every change of that book older than the
cutoff, append one consolidated summary stamped with the current time, and
increment the consolidated counter. -/
def consolidateStep (matched : List ChangeDoc) (cutoff now : Nat)
    (st : List ChangeDoc × Nat) (b : Nat) : List ChangeDoc × Nat :=
  let grp := matched.filter (fun d => d.book_id == b)
  let deleted := st.1.filter (fun d => !(d.book_id == b && d.timestamp < cutoff))
  (deleted ++
     [{ book_id := b, timestamp := now, change_type := "consolidated",
        summary := some (grp.length, minTs (grp.map ChangeDoc.timestamp),
                         maxTs (grp.map ChangeDoc.timestamp)) }],
   st.2 + 1)

/-- consolidate_changes (store.py lines 445-478): the aggregation matches the
changes older than the cutoff and groups them by book id with a count and a
min/max timestamp range; the loop then deletes each group and inserts one
summary per group, returning the number of groups consolidated. -/
def consolidate_changes (docs : List ChangeDoc) (cutoff now : Nat) :
    List ChangeDoc × Nat :=
  let matched := docs.filter (fun d => d.timestamp < cutoff)
  let gids := (matched.map ChangeDoc.book_id).dedup
  gids.foldl (consolidateStep matched cutoff now) (docs, 0)

/-! ## src/crawler/client.py: CrawlerClient.fetch -/

/-- What the server does with one HTTP attempt: answer with a status code and
body, or fail at the transport layer with a network or timeout error. -/
inductive Resp where
  | status (code : Nat) (body : String)
  | netErr
  | timeoutErr
deriving DecidableEq, Repr

/-- The exceptions fetch can surface: httpx.HTTPStatusError raised by
raise_for_status on a 5xx, httpx.NetworkError, httpx.TimeoutException, the
tenacity RetryError wrapping the last error once the attempt ceiling is
reached, and a fuel marker unreachable for a positive attempt ceiling. -/
inductive FetchErr where
  | httpStatusError (code : Nat)
  | networkError
  | timeoutError
  | retryError (last : FetchErr)
  | fuelOut
deriving DecidableEq, Repr

/-- One attempt of the fetch body (client.py lines 58-79): a transport error
raises; a status of 500 or more raises HTTPStatusError via raise_for_status;
a 4xx returns immediately with an empty body; otherwise the page is
returned. The final URL is the request URL (redirects aside). -/
def fetchAttempt (url : String) (r : Resp) : Except FetchErr (Nat × String × String) :=
  match r with
  | Resp.netErr => Except.error FetchErr.networkError
  | Resp.timeoutErr => Except.error FetchErr.timeoutError
  | Resp.status code body =>
      if 500 ≤ code then Except.error (FetchErr.httpStatusError code)
      else if 400 ≤ code then Except.ok (code, "", url)
      else Except.ok (code, body, url)

/-- The tenacity retry predicate of the fetch decorator (client.py lines
33-37): retry_if_exception_type((httpx.NetworkError, httpx.TimeoutException)).
No other exception is retried. -/
def retryableErr : FetchErr → Bool
  | FetchErr.networkError => true
  | FetchErr.timeoutError => true
  | _ => false

/-- The tenacity attempt loop with stop_after_attempt(maxAttempts): run the
body for attempt n; on success return; on a non-retryable exception raise it
at once; on a retryable exception stop with RetryError when n has reached the
ceiling, else back off and try again. Returns the outcome with the number of
attempts executed. The server is indexed by attempt number. -/
def fetchLoop (server : Nat → Resp) (url : String) (maxAttempts : Nat) :
    Nat → Nat → Except FetchErr (Nat × String × String) × Nat
  | 0, n => (Except.error FetchErr.fuelOut, n)
  | fuel + 1, n =>
      match fetchAttempt url (server n) with
      | Except.ok v => (Except.ok v, n)
      | Except.error e =>
          if retryableErr e then
            if maxAttempts ≤ n then (Except.error (FetchErr.retryError e), n)
            else fetchLoop server url maxAttempts fuel (n + 1)
          else (Except.error e, n)

/-- CrawlerClient.fetch under its decorator, with the configured
settings.retry_attempts as the stop_after_attempt ceiling. -/
def fetch (server : Nat → Resp) (url : String) (retry_attempts : Nat) :
    Except FetchErr (Nat × String × String) × Nat :=
  fetchLoop server url retry_attempts retry_attempts 1

/-! ## src/crawler/client.py: politeness gate -/

/-- last_request_time of a freshly constructed CrawlerClient (client.py line
24): 0.0. Each client instance owns its own marker and lock. -/
def newClientLast : ℚ := 0

/-- The dispatch instant of one fetch through the politeness gate (client.py
lines 51-57): with the instance marker last and current time now, when
now - last is below the interval the worker sleeps the difference and
dispatches at last + interval, else it dispatches at now. After the response
the marker becomes the response completion time. -/
def dispatchTime (interval last now : ℚ) : ℚ :=
  if now - last < interval then last + interval else now

/-! ## src/crawler/runner.py: BooksCrawler -/

/-- The methods MongoStore defines (store.py): attribute lookup on the store
resolves only these names; any other attribute raises AttributeError. -/
def mongoStoreMethods : List String :=
  ["init_indexes", "compute_html_hash", "store_html_snapshot", "upsert_book",
   "get_book_by_url", "record_change", "get_last_checkpoint", "set_checkpoint",
   "get_books_by_category", "get_recent_changes", "cleanup_old_snapshots",
   "get_crawl_status", "get_pending_urls", "find_content_changes",
   "get_crawl_metrics", "get_crawl_stats", "get_failed_books",
   "find_duplicate_books", "mark_for_recrawl", "get_category_progress",
   "get_books_for_export", "remove_orphaned_snapshots", "consolidate_changes"]

/-- The site as the extractor functions see it: the category list parsed from
the index page, the book links per list page, and the optional next-page link
per list page. Fetches of these pages are taken to succeed with status 200;
item-level fetch failures do not matter to the claims settled on this model. -/
structure Site where
  categories : List (String × String)
  pageBooks : String → List (String × String)
  nextPage : String → Option String

/-- The kind of each fetch a run performs: the index page, a category list
page, or a book detail page. -/
inductive FetchKind where
  | index
  | listPage
  | item
deriving DecidableEq, Repr

/-- The run-scoped mutable state of BooksCrawler: the seen-URL set, the log of
fetches dispatched so far, the success counter and the checkpoint writes. -/
structure CrawlState where
  seen : List String
  log : List (FetchKind × String)
  books_processed : Nat
  checkpoints : List String
deriving Repr

/-- crawl_book_page (runner.py lines 49-107): return at once when the URL is
in the seen set, else add it to the seen set and fetch it (the add happens
before the fetch is dispatched; the check and the add have no suspension
point between them). A successful crawl increments the counter and writes a
checkpoint every checkpoint_interval successes. -/
def crawl_book_page (interval : Nat) (st : CrawlState) (url : String) : CrawlState :=
  if url ∈ st.seen then st
  else
    let processed := st.books_processed + 1
    { seen := url :: st.seen,
      log := st.log ++ [(FetchKind.item, url)],
      books_processed := processed,
      checkpoints :=
        if processed % interval == 0 then st.checkpoints ++ [url] else st.checkpoints }

/-- The body of crawl_category_page for one list page (runner.py lines
119-140): fetch the list page, then dispatch crawl_book_page for every
listed book URL not yet in the seen set. Concurrent item tasks are
serialized in program order. -/
def categoryPageStep (site : Site) (interval : Nat) (st : CrawlState) (url : String) :
    CrawlState :=
  (site.pageBooks url).foldl
    (fun s tb => if tb.2 ∈ s.seen then s else crawl_book_page interval s tb.2)
    { st with log := st.log ++ [(FetchKind.listPage, url)] }

/-- crawl_category_page (runner.py lines 109-153): process the list page and
recurse into the next page while one exists; fuel bounds the pagination
depth of the embedding. -/
def crawl_category_page (site : Site) (interval : Nat) :
    Nat → CrawlState → String → CrawlState
  | 0, st, url => categoryPageStep site interval st url
  | fuel + 1, st, url =>
      match site.nextPage url with
      | some nu =>
          crawl_category_page site interval fuel (categoryPageStep site interval st url) nu
      | none => categoryPageStep site interval st url

/-- Why a run can fail: the embedded failure of BooksCrawler.run. -/
inductive RunErr where
  | attributeError
deriving DecidableEq, Repr

/-- The category loop of run (runner.py lines 188-204): while a resume value
is set, a category whose URL differs from it is skipped; once a category URL
equals the resume value it is crawled and the resume value is cleared, so the
later categories are crawled too. -/
def runCategories (site : Site) (interval fuel : Nat) :
    List (String × String) → Option String → CrawlState → CrawlState
  | [], _, st => st
  | c :: rest, resume, st =>
      match resume with
      | some r =>
          if c.2 ≠ r then runCategories site interval fuel rest (some r) st
          else runCategories site interval fuel rest none
                 (crawl_category_page site interval fuel st c.2)
      | none =>
          runCategories site interval fuel rest none
            (crawl_category_page site interval fuel st c.2)

/-- BooksCrawler.run (runner.py lines 155-221): when invoked with a resume
URL the code evaluates self.store.get_processed_urls(), an attribute
MongoStore does not define, so the run raises AttributeError (re-raised by
the outer handler). Without a resume URL it fetches the index page, extracts
the categories and crawls them in order over a fresh seen set. -/
def runner_run (site : Site) (start_url : String) (interval fuel : Nat)
    (resume_url : Option String) : Except RunErr CrawlState :=
  match resume_url with
  | some _ =>
      if mongoStoreMethods.contains "get_processed_urls" then
        Except.ok (runCategories site interval fuel site.categories resume_url
          { seen := [], log := [(FetchKind.index, start_url)],
            books_processed := 0, checkpoints := [] })
      else Except.error RunErr.attributeError
  | none =>
      Except.ok (runCategories site interval fuel site.categories none
        { seen := [], log := [(FetchKind.index, start_url)],
          books_processed := 0, checkpoints := [] })

/-- The fetches of a URL in a run log, every page kind counted. -/
def countUrl (u : String) (log : List (FetchKind × String)) : Nat :=
  (log.filter (fun e => e.2 == u)).length

/-- The item-page fetches of a URL in a run log. -/
def countItem (u : String) (log : List (FetchKind × String)) : Nat :=
  (log.filter (fun e => e.1 == FetchKind.item && e.2 == u)).length

/-! ## scheduler/jobs.py -/

/-- The observable outcome of one scheduled job invocation: the number of
executions of the job body, the sleeps between attempts, the JobRun statuses
persisted in order, whether the Notifier was called with critical set, and
whether the invocation ended in success. -/
structure JobResult where
  attempts : Nat
  sleeps : List Nat
  statuses : List String
  notifiedCritical : Bool
  ok : Bool
deriving DecidableEq, Repr

/-- The retry loop of full_site_scan (jobs.py lines 43-107): max_retries is 3
and the starting delay 1 second; each attempt first persists a running
JobRun; a successful body persists a success JobRun and returns; a failing
body with retries left sleeps the current delay, doubles it and tries again;
a failing body with no retries left persists an error JobRun and notifies
critically. fails gives, per attempt index, whether the body raises. -/
def fullScanGo (fails : Nat → Bool) :
    Nat → Nat → Nat → List Nat → List String → JobResult
  | 0, attempt, _, sleeps, statuses =>
      { attempts := attempt, sleeps := sleeps, statuses := statuses,
        notifiedCritical := false, ok := false }
  | fuel + 1, attempt, delay, sleeps, statuses =>
      let statuses := statuses ++ ["running"]
      if fails attempt then
        if 3 ≤ attempt then
          { attempts := attempt + 1, sleeps := sleeps,
            statuses := statuses ++ ["error"], notifiedCritical := true, ok := false }
        else
          fullScanGo fails fuel (attempt + 1) (delay * 2) (sleeps ++ [delay]) statuses
      else
        { attempts := attempt + 1, sleeps := sleeps,
          statuses := statuses ++ ["success"], notifiedCritical := false, ok := true }

/-- full_site_scan (jobs.py lines 33-107): the loop runs while attempt is at
most max_retries, so four executions suffice as fuel. -/
def full_site_scan (fails : Nat → Bool) : JobResult :=
  fullScanGo fails 4 0 1 [] []

/-- detect_changes as a scheduled job (jobs.py lines 109-171): one running
JobRun, one body execution, and on failure one error JobRun with no retry, no
sleep and no notification; on success one success JobRun. -/
def detect_changes_job (fails : Bool) : JobResult :=
  if fails then
    { attempts := 1, sleeps := [], statuses := ["running", "error"],
      notifiedCritical := false, ok := false }
  else
    { attempts := 1, sleeps := [], statuses := ["running", "success"],
      notifiedCritical := false, ok := true }

/-! ## src/scheduler/scheduler.py -/

/-- One job registration of BookScheduler._configure_jobs (scheduler.py lines
39-83): id, max_instances, coalesce, misfire_grace_time in seconds. -/
structure JobConfig where
  id : String
  maxInstances : Nat
  coalesce : Bool
  misfireGrace : Nat
deriving DecidableEq, Repr

/-- The four jobs exactly as _configure_jobs registers them. -/
def configuredJobs : List JobConfig :=
  [{ id := "full_site_scan", maxInstances := 1, coalesce := true, misfireGrace := 3600 },
   { id := "change_detection", maxInstances := 1, coalesce := true, misfireGrace := 1800 },
   { id := "maintenance", maxInstances := 1, coalesce := true, misfireGrace := 3600 },
   { id := "health_check", maxInstances := 1, coalesce := true, misfireGrace := 300 }]

/-- The max_instances bound registered for a job id; an unregistered id never
runs. -/
def maxInstancesOf (j : String) : Nat :=
  match configuredJobs.find? (fun c => c.id == j) with
  | some c => c.maxInstances
  | none => 0

/-- A scheduler event: a trigger fires for a job id, or a running invocation
of a job id reaches a terminal JobRun status. -/
inductive SchedEvent where
  | fire (id : String)
  | finish (id : String)

/-- Modelled from the spec: the executor of the APScheduler library (not part
of this repository) under max_instances and coalesce as configured — a firing
for a job with its maximum number of running instances is dropped, not
queued, and a terminal outcome releases one instance. The state counts the
running invocations per job id. -/
def stepSched (st : String → Nat) : SchedEvent → String → Nat
  | SchedEvent.fire j =>
      if maxInstancesOf j ≤ st j then st
      else fun k => if k = j then st j + 1 else st k
  | SchedEvent.finish j => fun k => if k = j then st k - 1 else st k

/-- The running-invocation counts after a trace of events, from the idle
scheduler. -/
def schedRun (tr : List SchedEvent) : String → Nat :=
  tr.foldl stepSched (fun _ => 0)

/-- The dedup invariant of a crawl state: a URL in the seen set has been
item-fetched at most once, and a URL outside it has not been item-fetched at
all. -/
def SeenInv (u : String) (st : CrawlState) : Prop :=
  (u ∈ st.seen ∧ countItem u st.log ≤ 1) ∨ (u ∉ st.seen ∧ countItem u st.log = 0)

/-- An example site: one category page with no books and no pagination, as a
concrete instance for the runner theorems. -/
def exampleSite : Site :=
  { categories :=
      [("Poetry", "https://books.toscrape.com/catalogue/category/books/poetry_23/index.html")],
    pageBooks := fun _ => [],
    nextPage := fun _ => none }

/-- A site whose index page lists the same category URL twice, as nothing in
extract_categories or the run loop deduplicates category URLs. -/
def dupSite : Site :=
  { categories :=
      [("Fiction", "https://books.toscrape.com/catalogue/category/books/fiction_10/index.html"),
       ("Fiction duplicate", "https://books.toscrape.com/catalogue/category/books/fiction_10/index.html")],
    pageBooks := fun _ => [],
    nextPage := fun _ => none }

/-- Five update ChangeRecords for book 7 at timestamps 1 through 5. -/
def exampleChangeDocs : List ChangeDoc :=
  [{ book_id := 7, timestamp := 1, change_type := "update", summary := none },
   { book_id := 7, timestamp := 2, change_type := "update", summary := none },
   { book_id := 7, timestamp := 3, change_type := "update", summary := none },
   { book_id := 7, timestamp := 4, change_type := "update", summary := none },
   { book_id := 7, timestamp := 5, change_type := "update", summary := none }]

/-! ## Claim theorems -/

/-- C5: a price change from 100.00 to 150.00 (50 percent) is classified
significant by is_significant_change and notify_price_change sends the alert
email; a change from 100.00 to 104.00 (4 percent) is classified not
significant and notify_price_change sends nothing. -/
theorem c5_significance_and_notification :
    is_significant_change [("price_incl_tax", Value.vnum 100, Value.vnum 150)] = true
    ∧ notify_price_change_sends 100 150 = some true
    ∧ is_significant_change [("price_incl_tax", Value.vnum 100, Value.vnum 104)] = false
    ∧ notify_price_change_sends 100 104 = some false := by
  refine ⟨?_, ?_, ?_, ?_⟩
  · simp [is_significant_change, significant_fields, price_fields, floatOrZero,
      is_significant_price_change, sig_threshold]
    norm_num
  · simp [notify_price_change_sends]
    norm_num
  · simp [is_significant_change, significant_fields, price_fields, floatOrZero,
      is_significant_price_change, sig_threshold]
    norm_num
  · simp [notify_price_change_sends]
    norm_num

/-- C10: significance classification is total on degenerate prices — a None
old or new price is coerced to 0 by float(x or 0), and a zero old price makes
is_significant_price_change return whether the new price is positive, so the
percentage division is never evaluated with a zero divisor. -/
theorem c10_degenerate_price_totality (p θ : ℚ) :
    is_significant_price_change 0 p θ = decide (0 < p)
    ∧ is_significant_change [("price_incl_tax", Value.vnone, Value.vnum p)] = decide (0 < p)
    ∧ is_significant_change [("price_excl_tax", Value.vnum p, Value.vnone)]
        = is_significant_price_change p 0 sig_threshold := by
  refine ⟨?_, ?_, ?_⟩
  · simp [is_significant_price_change]
  · simp [is_significant_change, significant_fields, price_fields, floatOrZero,
      is_significant_price_change]
  · simp [is_significant_change, significant_fields, price_fields, floatOrZero]

/-- C2: the fetch of a URL whose server always answers 503 raises
HTTPStatusError on the first attempt and the tenacity predicate does not
retry it — with retry_attempts 5 (the default), the fetch surfaces as a
failure after exactly one attempt instead of being retried; a 404 returns
immediately as an item failure after one attempt; only network and timeout
errors are retried, and those exhaust after retry_attempts total attempts. -/
theorem c2_retry_behaviour :
    fetch (fun _ => Resp.status 503 "Service Unavailable") "https://books.toscrape.com/" 5
      = (Except.error (FetchErr.httpStatusError 503), 1)
    ∧ fetch (fun _ => Resp.status 404 "Not Found") "https://books.toscrape.com/" 5
      = (Except.ok (404, "", "https://books.toscrape.com/"), 1)
    ∧ fetch (fun _ => Resp.netErr) "https://books.toscrape.com/" 5
      = (Except.error (FetchErr.retryError FetchErr.networkError), 5) :=
  ⟨rfl, rfl, rfl⟩

/-- C4 counterexample: two workers that each construct a fresh CrawlerClient
(as crawl_book_page does on every call) both carry the initial marker 0, so
at time 100 both dispatch at 100 — a gap of 0, below the configured
interval of 1 second. The claimed cross-worker floor does not hold. -/
theorem c4_counterexample :
    dispatchTime 1 newClientLast 100 = 100
    ∧ dispatchTime 1 newClientLast 100 - dispatchTime 1 newClientLast 100 = 0
    ∧ (0 : ℚ) < 1 := by
  refine ⟨?_, ?_, by norm_num⟩
  · simp [dispatchTime, newClientLast]
  · simp

/-- C4 amended: the minimum-interval floor does hold between consecutive
fetches issued through one and the same CrawlerClient instance: when the
first fetch dispatches at d1, completes at rc (which becomes the marker) and
the next fetch arrives at any now2 after rc, the second dispatch is at least
interval after the first. -/
theorem c4_same_client_floor (interval last now1 rc now2 : ℚ)
    (h1 : dispatchTime interval last now1 ≤ rc) :
    interval ≤ dispatchTime interval rc now2 - dispatchTime interval last now1 := by
  simp only [dispatchTime] at h1 ⊢
  split_ifs at h1 ⊢ <;> linarith

/-- Witness for c4_same_client_floor at interval 1, marker 0, first fetch at
time 100 completing at 100, second fetch arriving at 100. -/
theorem c4_same_client_floor_witness :
    (1 : ℚ) ≤ dispatchTime 1 100 100 - dispatchTime 1 0 100 :=
  c4_same_client_floor 1 0 100 100 100 (by simp [dispatchTime])

/-- C7 counterexample: the scheduled detect_changes job has no retry wrapper:
a failing execution persists a running and then an error JobRun after a
single attempt, with no sleep and no critical notification — against the
claim that every scheduled job is retried 3 times and then notified. -/
theorem c7_counterexample :
    detect_changes_job true
      = { attempts := 1, sleeps := [], statuses := ["running", "error"],
          notifiedCritical := false, ok := false } := rfl

/-- C7 amended: full_site_scan alone implements the claimed policy — a body
that fails every attempt is executed 4 times (initial try plus 3 retries)
with sleeps of 1, 2 and 4 seconds, and only then persists an error JobRun
and notifies critically; a body that fails once and then succeeds ends with
a success JobRun and no notification. -/
theorem c7_full_scan_retry (fails : Nat → Bool) :
    ((∀ i, i ≤ 3 → fails i = true) →
      full_site_scan fails
        = { attempts := 4, sleeps := [1, 2, 4],
            statuses := ["running", "running", "running", "running", "error"],
            notifiedCritical := true, ok := false })
    ∧ (fails 0 = true → fails 1 = false →
      full_site_scan fails
        = { attempts := 2, sleeps := [1],
            statuses := ["running", "running", "success"],
            notifiedCritical := false, ok := true }) := by
  constructor
  · intro h
    simp [full_site_scan, fullScanGo, h 0 (by norm_num), h 1 (by norm_num),
      h 2 (by norm_num), h 3 (by norm_num)]
  · intro h0 h1
    simp [full_site_scan, fullScanGo, h0, h1]

/-- Witness for c7_full_scan_retry: an always-failing body and a body that
fails only on the first attempt. -/
theorem c7_full_scan_retry_witness :
    full_site_scan (fun _ => true)
      = { attempts := 4, sleeps := [1, 2, 4],
          statuses := ["running", "running", "running", "running", "error"],
          notifiedCritical := true, ok := false }
    ∧ full_site_scan (fun i => i == 0)
      = { attempts := 2, sleeps := [1],
          statuses := ["running", "running", "success"],
          notifiedCritical := false, ok := true } :=
  ⟨(c7_full_scan_retry (fun _ => true)).1 (fun _ _ => rfl),
   (c7_full_scan_retry (fun i => i == 0)).2 rfl rfl⟩

/-- C1 counterexample: re-upserting a book with every tracked field value
identical but a fresh crawl timestamp — which upsert_book stamps on every
call — yields a nonempty changes dict containing the untracked
crawl_timestamp metadata, so one ChangeRecord is inserted instead of the
claimed zero. The tracked-field diff of the same pair is empty. -/
theorem c1_counterexample :
    tracked_fields.all
      (fun f => dictGet exampleExisting f == dictGet exampleRecrawl f) = true
    ∧ detect_changes exampleExisting exampleRecrawl = []
    ∧ upsert_book_changes exampleExisting exampleRecrawl
        = [("crawl_timestamp", Value.vnum 100, Value.vnum 200)]
    ∧ upsert_change_records exampleExisting exampleRecrawl = 1 :=
  ⟨rfl, rfl, rfl, by decide⟩

/-- filterMap over a duplicate-free list whose function yields a value only
at one element produces exactly that value. -/
theorem filterMap_eq_singleton {α : Type} (l : List String) (p : String → Option α)
    (f : String) (y : α) (hnd : l.Nodup) (hf : f ∈ l) (hpy : p f = some y)
    (hother : ∀ g ∈ l, g ≠ f → p g = none) : l.filterMap p = [y] := by
  induction l with
  | nil => cases hf
  | cons a t ih =>
    rcases List.mem_cons.mp hf with rfl | hft
    · have ht : t.filterMap p = [] := by
        rw [List.filterMap_eq_nil_iff]
        intro g hg
        exact hother g (List.mem_cons_of_mem _ hg)
          (fun hgf => (List.nodup_cons.mp hnd).1 (hgf ▸ hg))
      simp [List.filterMap_cons, hpy, ht]
    · have haf : a ≠ f := fun haf => (List.nodup_cons.mp hnd).1 (haf ▸ hft)
      have hpa : p a = none := hother a (List.mem_cons_self a t) haf
      simp only [List.filterMap_cons, hpa]
      exact ih (List.nodup_cons.mp hnd).2 hft
        (fun g hg hgf => hother g (List.mem_cons_of_mem _ hg) hgf)

/-- C1 amended: the tracked-field discipline the claim describes holds of the
scheduler diff detect_changes — its diff is empty exactly when every tracked
field agrees, an entry (f, old, new) occurs exactly for a tracked field whose
value changed, and when exactly one tracked field changed the diff is exactly
that single old/new pair; the upsert path, by contrast, diffs every stored
key, so the metadata-only recrawl yields a crawl_timestamp entry. -/
theorem c1_tracked_diff_behaviour :
    (∀ old_content new_content : Doc,
      detect_changes old_content new_content = []
        ↔ ∀ f ∈ tracked_fields, dictGet old_content f = dictGet new_content f)
    ∧ (∀ (old_content new_content : Doc) (f : String) (ov nv : Value),
      (f, ov, nv) ∈ detect_changes old_content new_content
        ↔ f ∈ tracked_fields ∧ ov = dictGet old_content f
            ∧ nv = dictGet new_content f ∧ ov ≠ nv)
    ∧ (∀ (old_content new_content : Doc) (f : String),
      f ∈ tracked_fields →
      dictGet old_content f ≠ dictGet new_content f →
      (∀ g ∈ tracked_fields, g ≠ f → dictGet old_content g = dictGet new_content g) →
      detect_changes old_content new_content
        = [(f, dictGet old_content f, dictGet new_content f)])
    ∧ upsert_book_changes exampleExisting exampleRecrawl
        = [("crawl_timestamp", Value.vnum 100, Value.vnum 200)] := by
  refine ⟨?_, ?_, ?_, rfl⟩
  · intro oc nc
    rw [detect_changes, List.filterMap_eq_nil_iff]
    constructor
    · intro h f hf
      by_contra hne
      simpa [hne] using h f hf
    · intro h f hf
      simp [h f hf]
  · intro oc nc f ov nv
    rw [detect_changes, List.mem_filterMap]
    constructor
    · rintro ⟨g, hg, hsome⟩
      by_cases h : dictGet oc g = dictGet nc g
      · simp [h] at hsome
      · rw [if_pos h] at hsome
        obtain ⟨rfl, rfl, rfl⟩ := Prod.mk.injEq .. ▸ Option.some.injEq .. ▸ hsome
        exact ⟨hg, rfl, rfl, h⟩
    · rintro ⟨hf, rfl, rfl, hne⟩
      exact ⟨f, hf, by simp [hne]⟩
  · intro oc nc f hf hne hothers
    rw [detect_changes]
    refine filterMap_eq_singleton _ _ f _ (by decide) hf (by simp [hne]) ?_
    intro g hg hgf
    simp [hothers g hg hgf]

/-- Witness for c1_tracked_diff_behaviour: the single-tracked-field change of
price_incl_tax from 19.99 to 24.99 produces exactly that diff entry. -/
theorem c1_tracked_diff_behaviour_witness :
    detect_changes exampleExisting examplePriceChange
      = [("price_incl_tax", dictGet exampleExisting "price_incl_tax",
          dictGet examplePriceChange "price_incl_tax")] :=
  c1_tracked_diff_behaviour.2.2.1 exampleExisting examplePriceChange
    "price_incl_tax" (by decide) (by decide) (by decide)

/-- C3: a run invoked with any prior checkpoint value raises AttributeError —
run calls self.store.get_processed_urls(), a method MongoStore does not
define — so no seen-set seeding happens at all; and even inside the category
loop, a resume value that matches no category URL (a checkpoint holds an item
URL, never a category URL) makes the loop skip every category. -/
theorem c3_resume_behaviour :
    (∀ (site : Site) (start_url : String) (interval fuel : Nat) (u : String),
      runner_run site start_url interval fuel (some u)
        = Except.error RunErr.attributeError)
    ∧ (∀ (site : Site) (interval fuel : Nat) (cats : List (String × String))
        (r : String) (st : CrawlState),
      (∀ c ∈ cats, c.2 ≠ r) → runCategories site interval fuel cats (some r) st = st) := by
  constructor
  · intro site start_url interval fuel u
    rfl
  · intro site interval fuel cats r st h
    induction cats with
    | nil => rfl
    | cons c rest ih =>
      rw [runCategories, if_pos (h c (List.mem_cons_self c rest))]
      exact ih (fun d hd => h d (List.mem_cons_of_mem _ hd))

/-- Witness for c3_resume_behaviour: resuming from an item-page checkpoint
skips the single category of the example site. -/
theorem c3_resume_behaviour_witness :
    runner_run exampleSite "https://books.toscrape.com/" 10 3
      (some "https://books.toscrape.com/catalogue/a-light-in-the-attic_1000/index.html")
      = Except.error RunErr.attributeError
    ∧ runCategories exampleSite 10 3 exampleSite.categories
        (some "https://books.toscrape.com/catalogue/a-light-in-the-attic_1000/index.html")
        { seen := [], log := [], books_processed := 0, checkpoints := [] }
      = { seen := [], log := [], books_processed := 0, checkpoints := [] } :=
  ⟨c3_resume_behaviour.1 exampleSite "https://books.toscrape.com/" 10 3 _,
   c3_resume_behaviour.2 exampleSite 10 3 exampleSite.categories _ _ (by decide)⟩

/-- Every state reachable by stepping the scheduler keeps each running count
at or below the configured max_instances bound. -/
theorem schedRun_le_max (tr : List SchedEvent) :
    ∀ st : String → Nat, (∀ k, st k ≤ maxInstancesOf k) →
      ∀ k, (tr.foldl stepSched st) k ≤ maxInstancesOf k := by
  induction tr with
  | nil => intro st h k; exact h k
  | cons e t ih =>
    intro st h k
    rw [List.foldl_cons]
    refine ih _ ?_ k
    intro k'
    cases e with
    | fire j =>
      by_cases hd : maxInstancesOf j ≤ st j
      · simpa [stepSched, hd] using h k'
      · by_cases hk : k' = j
        · subst hk
          simpa [stepSched, hd] using Nat.lt_of_not_le hd
        · simpa [stepSched, hd, hk] using h k'
    | finish j =>
      by_cases hk : k' = j
      · subst hk
        exact le_trans (by simp [stepSched]) (h k')
      · simpa [stepSched, hk] using h k'

/-- C9: with every job registered at max_instances 1 and coalesce true, a
trigger firing while the same job type is still running is dropped — the
scheduler state is unchanged, nothing is queued — and along any event trace
at most one invocation of a configured job type runs at a time. -/
theorem c9_singleton_execution :
    (∀ (st : String → Nat) (j : String),
      maxInstancesOf j ≤ st j → stepSched st (SchedEvent.fire j) = st)
    ∧ (∀ (tr : List SchedEvent) (j : String),
      j ∈ configuredJobs.map JobConfig.id → schedRun tr j ≤ 1) := by
  constructor
  · intro st j h
    simp [stepSched, h]
  · intro tr j hj
    have h1 : maxInstancesOf j = 1 := by
      simp [configuredJobs] at hj
      rcases hj with rfl | rfl | rfl | rfl <;> rfl
    have h2 := schedRun_le_max tr (fun _ => 0) (fun k => Nat.zero_le _) j
    rw [h1] at h2
    exact h2

/-- Witness for c9_singleton_execution: a second firing of maintenance while
one instance runs is dropped, and a double-fire trace leaves at most one
running maintenance invocation. -/
theorem c9_singleton_execution_witness :
    stepSched (fun _ => 1) (SchedEvent.fire "maintenance") = (fun _ => 1)
    ∧ schedRun [SchedEvent.fire "maintenance", SchedEvent.fire "maintenance"]
        "maintenance" ≤ 1 :=
  ⟨c9_singleton_execution.1 (fun _ => 1) "maintenance" (by decide),
   c9_singleton_execution.2 [SchedEvent.fire "maintenance", SchedEvent.fire "maintenance"]
     "maintenance" (by simp [configuredJobs])⟩

/-- Appending one fetch log entry adds one to the item count of u exactly
when the entry is an item fetch of u. -/
theorem countItem_append_single (u : String) (l : List (FetchKind × String))
    (e : FetchKind × String) :
    countItem u (l ++ [e])
      = countItem u l + cond (e.1 == FetchKind.item && e.2 == u) 1 0 := by
  simp only [countItem, List.filter_append]
  cases h : (e.1 == FetchKind.item && e.2 == u) <;> simp [h]

/-- crawl_book_page preserves the dedup invariant: the seen check happens
before the fetch and the URL is added to the seen set as the fetch is
logged. -/
theorem crawl_book_page_inv (interval : Nat) (u url : String) (st : CrawlState)
    (h : SeenInv u st) : SeenInv u (crawl_book_page interval st url) := by
  by_cases hs : url ∈ st.seen
  · rw [crawl_book_page, if_pos hs]; exact h
  · rw [crawl_book_page, if_neg hs]
    rcases h with ⟨hu, hc⟩ | ⟨hu, hc⟩
    · have hne : (url == u) = false :=
        beq_eq_false_iff_ne.mpr (fun he => hs (he ▸ hu))
      refine Or.inl ⟨List.mem_cons_of_mem _ hu, ?_⟩
      show countItem u (st.log ++ [(FetchKind.item, url)]) ≤ 1
      rw [countItem_append_single, hne]
      exact hc
    · by_cases he : url = u
      · subst he
        refine Or.inl ⟨List.mem_cons_self _ _, ?_⟩
        show countItem url (st.log ++ [(FetchKind.item, url)]) ≤ 1
        rw [countItem_append_single, hc]
        simp
      · refine Or.inr ⟨?_, ?_⟩
        · show u ∉ url :: st.seen
          intro hcon
          rcases List.mem_cons.mp hcon with hcon | hcon
          · exact he hcon.symm
          · exact hu hcon
        · show countItem u (st.log ++ [(FetchKind.item, url)]) = 0
          have hne : (url == u) = false := beq_eq_false_iff_ne.mpr he
          rw [countItem_append_single, hne, hc]
          simp

/-- The concurrent item dispatch loop of a list page preserves the dedup
invariant. -/
theorem foldl_books_inv (interval : Nat) (u : String) :
    ∀ (books : List (String × String)) (st : CrawlState), SeenInv u st →
      SeenInv u (books.foldl
        (fun s tb => if tb.2 ∈ s.seen then s else crawl_book_page interval s tb.2) st) := by
  intro books
  induction books with
  | nil => intro st h; exact h
  | cons b rest ih =>
    intro st h
    rw [List.foldl_cons]
    by_cases hb : b.2 ∈ st.seen
    · exact ih _ (by simpa [hb] using h)
    · exact ih _ (by simpa [hb] using crawl_book_page_inv interval u b.2 st h)

/-- Logging a list-page fetch preserves the dedup invariant. -/
theorem listPage_log_inv (u v : String) (st : CrawlState) (h : SeenInv u st) :
    SeenInv u { st with log := st.log ++ [(FetchKind.listPage, v)] } := by
  rcases h with ⟨hu, hc⟩ | ⟨hu, hc⟩
  · exact Or.inl ⟨hu, by rw [countItem_append_single]; exact hc⟩
  · exact Or.inr ⟨hu, by rw [countItem_append_single]; exact hc⟩

/-- Processing one list page preserves the dedup invariant. -/
theorem categoryPageStep_inv (site : Site) (interval : Nat) (u : String)
    (st : CrawlState) (url : String) (h : SeenInv u st) :
    SeenInv u (categoryPageStep site interval st url) :=
  foldl_books_inv interval u (site.pageBooks url) _ (listPage_log_inv u url st h)

/-- crawl_category_page preserves the dedup invariant through pagination. -/
theorem crawl_category_page_inv (site : Site) (interval : Nat) (u : String) :
    ∀ (fuel : Nat) (st : CrawlState) (url : String), SeenInv u st →
      SeenInv u (crawl_category_page site interval fuel st url) := by
  intro fuel
  induction fuel with
  | zero =>
    intro st url h
    exact categoryPageStep_inv site interval u st url h
  | succ n ih =>
    intro st url h
    simp only [crawl_category_page]
    cases hnp : site.nextPage url with
    | none => exact categoryPageStep_inv site interval u st url h
    | some nu => exact ih _ nu (categoryPageStep_inv site interval u st url h)

/-- The category loop preserves the dedup invariant. -/
theorem runCategories_inv (site : Site) (interval fuel : Nat) (u : String) :
    ∀ (cats : List (String × String)) (resume : Option String) (st : CrawlState),
      SeenInv u st → SeenInv u (runCategories site interval fuel cats resume st) := by
  intro cats
  induction cats with
  | nil => intro resume st h; cases resume <;> exact h
  | cons c rest ih =>
    intro resume st h
    cases resume with
    | some r =>
      rw [runCategories]
      by_cases hr : c.2 ≠ r
      · rw [if_pos hr]; exact ih _ _ h
      · rw [if_neg hr]; exact ih _ _ (crawl_category_page_inv site interval u fuel st c.2 h)
    | none =>
      rw [runCategories]
      exact ih _ _ (crawl_category_page_inv site interval u fuel st c.2 h)

/-- C8 counterexample: category list pages are fetched without consulting the
seen set, so a run against a site listing one category URL twice fetches
that URL twice — the claim that no URL whatsoever is fetched more than once
per run fails. -/
theorem c8_counterexample :
    (runner_run dupSite "https://books.toscrape.com/" 10 0 none).map
      (fun st =>
        countUrl "https://books.toscrape.com/catalogue/category/books/fiction_10/index.html" st.log)
      = Except.ok 2 := rfl

/-- C8 amended: item-page fetches are deduplicated — in any run, every URL is
item-fetched at most once, even when it is listed on two different category
pages, because the seen set is consulted before every item fetch and the URL
is added before the fetch is dispatched; only the unguarded index and
category list page fetches can repeat. -/
theorem c8_item_fetch_dedup (site : Site) (start_url : String) (interval fuel : Nat)
    (u : String) (st : CrawlState)
    (h : runner_run site start_url interval fuel none = Except.ok st) :
    countItem u st.log ≤ 1 := by
  have hst : runCategories site interval fuel site.categories none
      { seen := [], log := [(FetchKind.index, start_url)],
        books_processed := 0, checkpoints := [] } = st := by
    simpa [runner_run] using h
  have hinit : SeenInv u
      { seen := [], log := [(FetchKind.index, start_url)],
        books_processed := 0, checkpoints := [] } := by
    refine Or.inr ⟨by simp, ?_⟩
    simp [countItem]
  have := runCategories_inv site interval fuel u site.categories none _ hinit
  rw [hst] at this
  rcases this with ⟨_, hc⟩ | ⟨_, hc⟩
  · exact hc
  · simp [hc]

/-- Witness for c8_item_fetch_dedup on the duplicate-category site. -/
theorem c8_item_fetch_dedup_witness :
    countItem "https://books.toscrape.com/catalogue/category/books/fiction_10/index.html"
      (runCategories dupSite 10 0 dupSite.categories none
        { seen := [], log := [(FetchKind.index, "https://books.toscrape.com/")],
          books_processed := 0, checkpoints := [] }).log ≤ 1 :=
  c8_item_fetch_dedup dupSite "https://books.toscrape.com/" 10 0 _ _ rfl

/-- The consolidation loop increments its counter once per group. -/
theorem consolidate_foldl_count (matched : List ChangeDoc) (cutoff now : Nat) :
    ∀ (L : List Nat) (st : List ChangeDoc × Nat),
      (L.foldl (consolidateStep matched cutoff now) st).2 = st.2 + L.length := by
  intro L
  induction L with
  | nil => intro st; simp
  | cons a t ih =>
    intro st
    rw [List.foldl_cons, ih]
    simp only [consolidateStep, List.length_cons]
    omega

/-- Consolidating the group of a different book id leaves the changes of b
untouched: the deletion filter matches only the other id and the inserted
summary carries the other id. -/
theorem consolidateStep_other (matched : List ChangeDoc) (cutoff now : Nat)
    (st : List ChangeDoc × Nat) (b b' : Nat) (hne : b' ≠ b) :
    (consolidateStep matched cutoff now st b').1.filter (fun d => d.book_id == b)
      = st.1.filter (fun d => d.book_id == b) := by
  simp only [consolidateStep]
  rw [List.filter_append]
  have h1 : ∀ s : ChangeDoc, s.book_id = b' →
      List.filter (fun d => d.book_id == b) [s] = [] := by
    intro s hs
    simp [hs, beq_eq_false_iff_ne.mpr hne]
  have h2 : (st.1.filter (fun d => !(d.book_id == b' && d.timestamp < cutoff))).filter
        (fun d => d.book_id == b)
      = st.1.filter (fun d => d.book_id == b) := by
    rw [List.filter_comm]
    apply List.filter_eq_self.mpr
    intro d hd
    have hdb : d.book_id = b := by
      simpa using (List.mem_filter.mp hd).2
    simp [hdb, beq_eq_false_iff_ne.mpr (fun h => hne h.symm)]
  rw [h1 _ rfl, h2, List.append_nil]

/-- Folding the consolidation step over group ids that exclude b leaves the
changes of b untouched. -/
theorem consolidate_foldl_other (matched : List ChangeDoc) (cutoff now : Nat) (b : Nat) :
    ∀ (L : List Nat), b ∉ L → ∀ st : List ChangeDoc × Nat,
      (L.foldl (consolidateStep matched cutoff now) st).1.filter (fun d => d.book_id == b)
        = st.1.filter (fun d => d.book_id == b) := by
  intro L
  induction L with
  | nil => intro _ st; rfl
  | cons a t ih =>
    intro hb st
    rw [List.foldl_cons,
      ih (fun h => hb (List.mem_cons_of_mem _ h)) _,
      consolidateStep_other matched cutoff now st b a
        (fun h => hb (h ▸ List.mem_cons_self a t))]

/-- Consolidating the group of b itself, when every change of b in the
accumulator is older than the cutoff, deletes them all and leaves exactly the
one summary document built from the matched group of b. -/
theorem consolidateStep_same (matched : List ChangeDoc) (cutoff now : Nat)
    (st : List ChangeDoc × Nat) (b : Nat)
    (hsub : ∀ d ∈ st.1.filter (fun d => d.book_id == b), d.timestamp < cutoff) :
    (consolidateStep matched cutoff now st b).1.filter (fun d => d.book_id == b)
      = [{ book_id := b, timestamp := now, change_type := "consolidated",
           summary := some ((matched.filter (fun d => d.book_id == b)).length,
             minTs ((matched.filter (fun d => d.book_id == b)).map ChangeDoc.timestamp),
             maxTs ((matched.filter (fun d => d.book_id == b)).map ChangeDoc.timestamp)) }] := by
  simp only [consolidateStep]
  rw [List.filter_append]
  have h2 : (st.1.filter (fun d => !(d.book_id == b && d.timestamp < cutoff))).filter
        (fun d => d.book_id == b)
      = [] := by
    rw [List.filter_comm]
    apply List.filter_eq_nil_iff.mpr
    intro d hd
    have hdb := (List.mem_filter.mp hd).2
    have hts := hsub d hd
    simp [hdb, hts]
  rw [h2, List.nil_append]
  simp

/-- Under the hypothesis that every change of b is older than the cutoff, the
matched group of b is the whole group of b. -/
theorem matched_group_eq (docs : List ChangeDoc) (b cutoff : Nat)
    (hall : ∀ d ∈ docs, d.book_id = b → d.timestamp < cutoff) :
    (docs.filter (fun d => d.timestamp < cutoff)).filter (fun d => d.book_id == b)
      = docs.filter (fun d => d.book_id == b) := by
  rw [List.filter_comm]
  apply List.filter_eq_self.mpr
  intro d hd
  have hm := List.mem_filter.mp hd
  have hdb : d.book_id = b := by simpa using hm.2
  simpa using hall d hm.1 hdb

/-- C6: for a record with exactly 5 ChangeRecords, all older than the cutoff,
consolidate_changes deletes those 5 originals and leaves exactly one
consolidated summary for that record, stamped with the current time, whose
change count is 5 and whose date range is the min/max of the original change
timestamps; the operation returns the number of grouped records (book ids
with changes older than the cutoff) it consolidated. -/
theorem c6_consolidation (docs : List ChangeDoc) (b cutoff now : Nat)
    (h5 : (docs.filter (fun d => d.book_id == b)).length = 5)
    (hall : ∀ d ∈ docs, d.book_id = b → d.timestamp < cutoff) :
    (consolidate_changes docs cutoff now).1.filter (fun d => d.book_id == b)
      = [{ book_id := b, timestamp := now, change_type := "consolidated",
           summary := some (5,
             minTs ((docs.filter (fun d => d.book_id == b)).map ChangeDoc.timestamp),
             maxTs ((docs.filter (fun d => d.book_id == b)).map ChangeDoc.timestamp)) }]
    ∧ (consolidate_changes docs cutoff now).2
        = ((docs.filter (fun d => d.timestamp < cutoff)).map ChangeDoc.book_id).dedup.length := by
  have hb_in : b ∈ ((docs.filter (fun d => d.timestamp < cutoff)).map ChangeDoc.book_id).dedup := by
    have hne : docs.filter (fun d => d.book_id == b) ≠ [] := by
      intro hnil
      rw [hnil] at h5
      simp at h5
    obtain ⟨d, hd⟩ := List.exists_mem_of_ne_nil _ hne
    have hm := List.mem_filter.mp hd
    have hdb : d.book_id = b := by simpa using hm.2
    have hdm : d ∈ docs.filter (fun d => d.timestamp < cutoff) :=
      List.mem_filter.mpr ⟨hm.1, by simpa using hall d hm.1 hdb⟩
    exact List.mem_dedup.mpr (hdb ▸ List.mem_map_of_mem ChangeDoc.book_id hdm)
  obtain ⟨L1, L2, hsplit⟩ := List.append_of_mem hb_in
  have hnd : (L1 ++ b :: L2).Nodup := hsplit ▸ List.nodup_dedup _
  have hbL1 : b ∉ L1 := fun h =>
    (List.nodup_append.mp hnd).2.2 h (List.mem_cons_self b L2)
  have hbL2 : b ∉ L2 := (List.nodup_cons.mp (List.nodup_append.mp hnd).2.1).1
  constructor
  · simp only [consolidate_changes]
    rw [hsplit, List.foldl_append, List.foldl_cons]
    rw [consolidate_foldl_other _ _ _ _ L2 hbL2]
    have hsub : ∀ d ∈ (List.foldl
          (consolidateStep (docs.filter (fun d => d.timestamp < cutoff)) cutoff now)
          (docs, 0) L1).1.filter (fun d => d.book_id == b), d.timestamp < cutoff := by
      intro d hd
      rw [consolidate_foldl_other _ _ _ _ L1 hbL1] at hd
      have hm := List.mem_filter.mp hd
      have hdb : d.book_id = b := by simpa using hm.2
      exact hall d hm.1 hdb
    rw [consolidateStep_same _ _ _ _ _ hsub,
      matched_group_eq docs b cutoff hall, h5]
  · simp only [consolidate_changes]
    rw [consolidate_foldl_count]
    simp

/-- Witness for c6_consolidation: consolidating the five changes of book 7
with cutoff 10 at time 50 leaves one summary with count 5 and range 1 to 5,
and reports one consolidated record. -/
theorem c6_consolidation_witness :
    (consolidate_changes exampleChangeDocs 10 50).1.filter (fun d => d.book_id == 7)
      = [{ book_id := 7, timestamp := 50, change_type := "consolidated",
           summary := some (5, 1, 5) }]
    ∧ (consolidate_changes exampleChangeDocs 10 50).2 = 1 :=
  c6_consolidation exampleChangeDocs 7 10 50 (by decide) (by decide)
